import Mathlib

/-!
# Slack account plugin (rtcom-accounts-plugin-slack)

A shallow embedding of `src/slack-plugin.c`.  The plugin is glue between the
account-UI host (librtcom-accounts-widgets, GTK, glade, hildon) and a glade
dialog description.  Host objects are modelled as records, object identity as
a number handed out by an allocation counter, and every call into the host
that has an observable effect is appended to a call log.
-/

namespace SlackPlugin

/-! ## C strings -/

/-- The string terminator. -/
def NUL : Char := Char.ofNat 0

/-- The characters a NUL-terminated buffer holds: everything before the first
terminator. -/
def c_str (buf : List Char) : List Char :=
  buf.takeWhile (fun c => c != NUL)

/-- The libc `strchr`: offset of the first occurrence of `c` in the string held
by `buf`, `none` for a NULL result.  The match is tested before the
terminator, as in C. -/
def strchr : List Char → Char → Option Nat
  | [], _ => none
  | x :: xs, c =>
    if x = c then some 0
    else if x = NUL then none
    else (strchr xs c).map (fun i => i + 1)

/-- The glib `g_strdup`: a fresh buffer with the characters of the string and a
terminator. -/
def g_strdup (s : List Char) : List Char :=
  c_str s ++ [NUL]

/-- The glib `g_strconcat`: the strings held by the argument buffers, one after
the other. -/
def g_strconcat (parts : List (List Char)) : List Char :=
  (parts.map c_str).flatten

/-- The macro `SLACK_NEW_ACCOUNT_URI`. -/
def SLACK_NEW_ACCOUNT_URI : String := "https://www.slack.com/"

/-! ## Host objects -/

/-- The functions of this plugin that are handed to the host as callbacks, and
`gtk_true`. -/
inductive Callback where
  | on_advanced_settings_response
  | gtk_true
  | slack_plugin_on_advanced_cb
  | slack_plugin_on_register_cb
deriving DecidableEq, Repr

/-- The user-data pointer of a connection: the dialog context or NULL. -/
inductive UserData where
  | context
  | null
deriving DecidableEq, Repr

/-- One connection made with `g_signal_connect` and friends. -/
structure Handler where
  callback : Callback
  data : UserData
deriving DecidableEq, Repr

/-- An `AccountItem` with the display name of its service. -/
structure AccountItem where
  id : Nat
  service_display_name : String
deriving DecidableEq, Repr

/-- The two GObject types a start page is made of. -/
inductive PageType where
  | RTCOM_TYPE_EDIT
  | RTCOM_TYPE_LOGIN
deriving DecidableEq, Repr

/-- A start page as built with `g_object_new`: its type, the properties it was
given and the callbacks connected to it. -/
structure StartPage where
  gtype : PageType
  username_field : String
  username_label : Option String
  username_invalid_chars_re : String
  items_mask : Nat
  account : AccountItem
  on_register : List Handler
  on_advanced : List Handler
deriving DecidableEq, Repr

/-- The widget named "page" of the advanced dialog: the account it is bound to
and what `rtcom_page_validate` reports for its present contents (the return
value and the message of the error it sets, if it sets one). -/
structure RtcomPage where
  account : Option AccountItem
  validate : Bool × Option String
deriving DecidableEq, Repr

/-- The advanced dialog, a `GtkDialog` of a glade widget tree.  The widget
tree the dialog belongs to is kept with it: `page` is what
`glade_xml_get_widget (xml, "page")` gives for that tree. -/
structure GtkDialog where
  title : String
  buttons : List (String × Int)
  transient_for : Option Nat
  destroy_with_parent : Bool
  visible : Bool
  ref_count : Nat
  response_handlers : List Handler
  delete_event_handlers : List Handler
  page : Option RtcomPage
deriving DecidableEq, Repr

/-- What `glade_xml_new` built from the resource file: the widget named
"advanced", if the file has one. -/
structure GladeXML where
  advanced : Option GtkDialog
deriving DecidableEq, Repr

/-- The constants and library functions of the host that are not part of this
repository: the capability bits of librtcom-accounts-widgets, the GTK response
code, the build-time configuration of `config.h`, gettext, `g_snprintf`, the
glade loader (`none` is a NULL `GladeXML`), the widget hierarchy and the
browser launcher (`none` is success, `some m` a failure with error message
`m`). -/
structure Host where
  RTCOM_PLUGIN_CAPABILITY_ALL : Nat
  RTCOM_PLUGIN_CAPABILITY_FORGOT_PWD : Nat
  GTK_RESPONSE_OK : Int
  PLUGIN_XML_DIR : String
  GETTEXT_PACKAGE : String
  dgettext : String → String → String
  g_snprintf : Nat → String → String → String
  glade_xml_new : String → String → Option GladeXML
  gtk_widget_get_toplevel : StartPage → Option Nat
  hildon_uri_open : String → Option String

/-- The `RtcomAccountService` made by `rtcom_account_plugin_add_service`. -/
structure RtcomAccountService where
  name : String
  display_name : Option String
deriving DecidableEq, Repr

/-- The `RtcomAccountPlugin` instance: the provider descriptor. -/
structure RtcomAccountPlugin where
  name : Option String
  capabilities : Nat
  services : List RtcomAccountService
  glade_init_calls : Nat
deriving DecidableEq, Repr

/-- A call into the host with an observable effect. -/
inductive HostCall where
  | glade_xml_new (path domain : String)
  | rtcom_dialog_context_take_obj (xml : Bool)
  | g_warning (msg : String)
  | g_object_set_data_full (key : String) (dialog : Nat)
  | g_signal_connect (dialog : Nat) (signal : String) (cb : Callback)
  | gtk_window_set_transient_for (dialog parent : Nat)
  | gtk_window_set_destroy_with_parent (dialog : Nat)
  | rtcom_dialog_context_set_start_page (page : StartPage)
  | gtk_widget_show (dialog : Option Nat)
  | gtk_widget_hide (dialog : Nat)
  | rtcom_page_validate (dialog : Nat)
  | hildon_banner_show_information (dialog : Nat) (msg : String)
  | hildon_uri_open (uri : String)
deriving DecidableEq, Repr

/-- One `RtcomDialogContext` (an edit session) and the widgets made for it:
the `editing` and `account` properties, the object data stored under
"page_advanced", the start page, the dialogs by identity, the allocation
counter and the log of host calls. -/
structure World where
  editing : Bool
  account : AccountItem
  page_advanced : Option Nat
  start_page : Option StartPage
  dialogs : Nat → Option GtkDialog
  next_widget : Nat
  calls : List HostCall

/-! ## Plugin registration -/

/-- The C operator `~` on a 32-bit unsigned value. -/
def bit_not (x : Nat) : Nat := (2 ^ 32 - 1) ^^^ (x % 2 ^ 32)

/-- The instance initialiser `slack_plugin_init`. -/
def slack_plugin_init (h : Host) (self : RtcomAccountPlugin) : RtcomAccountPlugin :=
  { self with
    name := some "slack"
    capabilities :=
      (h.RTCOM_PLUGIN_CAPABILITY_ALL &&& bit_not h.RTCOM_PLUGIN_CAPABILITY_FORGOT_PWD) % 2 ^ 32
    services := self.services ++ [{ name := "haze/slack", display_name := some "Slack" }]
    glade_init_calls := self.glade_init_calls + 1 }

/-! ## Sign-up redirect -/

/-- Appends a host call to the log. -/
def World.call (w : World) (c : HostCall) : World :=
  { w with calls := w.calls ++ [c] }

/-- The part of `slack_plugin_on_register_cb` before `hildon_uri_open`: the
copy of the locale, the cut at the first dot and the concatenation. -/
def register_uri (lang : List Char) : String :=
  let lang := g_strdup lang
  let lang :=
    match strchr lang '.' with
    | some p => lang.set p NUL
    | none => lang
  String.mk (g_strconcat [SLACK_NEW_ACCOUNT_URI.data, lang])

/-- The callback `slack_plugin_on_register_cb`.  `env_LANG` is what
`getenv ("LANG")` returns; with a NULL result `strchr` is handed a NULL
pointer and the behaviour is undefined (`none`). -/
def slack_plugin_on_register_cb (h : Host) (env_LANG : Option String) (w : World) :
    Option World :=
  match env_LANG with
  | none => none
  | some lang =>
    let uri := register_uri lang.data
    let w := w.call (.hildon_uri_open uri)
    match h.hildon_uri_open uri with
    | none => some w
    | some message => some (w.call (.g_warning ("Failed to open browser: " ++ message)))

/-- The URLs handed to the browser launcher so far, oldest first. -/
def World.uris_opened (w : World) : List String :=
  w.calls.filterMap fun c =>
    match c with
    | .hildon_uri_open uri => some uri
    | _ => none

/-! ## Widgets -/

/-- Applies `f` to the dialog with identity `d`, if there is one. -/
def World.modify (w : World) (d : Nat) (f : GtkDialog → GtkDialog) : World :=
  { w with dialogs := fun i => if i = d then (w.dialogs d).map f else w.dialogs i }

/-- The GTK `gtk_widget_hide` on a dialog. -/
def gtk_widget_hide (dialog : Nat) (w : World) : World :=
  (w.modify dialog fun g => { g with visible := false }).call (.gtk_widget_hide dialog)

/-- The GTK `gtk_widget_show`; on a NULL widget its argument check fails and
nothing is shown. -/
def gtk_widget_show (dialog : Option Nat) (w : World) : World :=
  match dialog with
  | none => w.call (.gtk_widget_show none)
  | some d => (w.modify d fun g => { g with visible := true }).call (.gtk_widget_show (some d))

/-- The library `rtcom_page_validate`: what the page reports; on a NULL page
the argument check fails, giving FALSE and no error. -/
def rtcom_page_validate (page : Option RtcomPage) : Bool × Option String :=
  match page with
  | none => (false, none)
  | some p => p.validate

/-- The library `rtcom_page_set_account`; nothing happens on a NULL page. -/
def rtcom_page_set_account (account : AccountItem) (g : GtkDialog) : GtkDialog :=
  { g with page := g.page.map fun p => { p with account := some account } }

/-- The glib `g_signal_connect` on a dialog, for the two signals the plugin
uses: one more handler at the end of the list of that signal. -/
def g_signal_connect (dialog : Nat) (signal : String) (cb : Callback) (data : UserData)
    (w : World) : World :=
  (w.modify dialog fun g =>
    if signal = "response" then
      { g with response_handlers := g.response_handlers ++ [⟨cb, data⟩] }
    else
      { g with delete_event_handlers := g.delete_event_handlers ++ [⟨cb, data⟩] }).call
    (.g_signal_connect dialog signal cb)

/-- The call `rtcom_dialog_context_set_start_page`. -/
def rtcom_dialog_context_set_start_page (page : StartPage) (w : World) : World :=
  { w with start_page := some page }.call (.rtcom_dialog_context_set_start_page page)

/-! ## Advanced settings dialog -/

/-- The handler `on_advanced_settings_response`. -/
def on_advanced_settings_response (h : Host) (dialog : Nat) (response : Int) (w : World) :
    World :=
  if response = h.GTK_RESPONSE_OK then
    let page := (w.dialogs dialog).bind fun g => g.page
    let w := w.call (.rtcom_page_validate dialog)
    match rtcom_page_validate page with
    | (true, _) => gtk_widget_hide dialog w
    | (false, error) =>
      let w := w.call (.g_warning "advanced page validation failed")
      match error with
      | some message =>
        let w := w.call
          (.g_warning ("on_advanced_settings_response: error \"" ++ message ++ "\""))
        w.call (.hildon_banner_show_information dialog message)
      | none => w
  else
    gtk_widget_hide dialog w

/-- The two connections at the end of `create_advanced_settings_page`. -/
def connect_handlers (dialog : Nat) (w : World) : World :=
  let w := g_signal_connect dialog "response" .on_advanced_settings_response .context w
  g_signal_connect dialog "delete-event" .gtk_true .null w

/-- The transience step of `create_advanced_settings_page`: the lines from
`rtcom_dialog_context_get_start_page` to the end of the block it guards. -/
def set_transience (h : Host) (dialog : Nat) (w : World) : World :=
  match w.start_page with
  | some start_page =>
    match h.gtk_widget_get_toplevel start_page with
    | some toplevel =>
      let w := (w.modify dialog fun g => { g with transient_for := some toplevel }).call
        (.gtk_window_set_transient_for dialog toplevel)
      (w.modify dialog fun g => { g with destroy_with_parent := true }).call
        (.gtk_window_set_destroy_with_parent dialog)
    | none => w
  | none => w

/-- The function `create_advanced_settings_page`: the dialog it returns (`none`
for NULL) and the world it leaves. -/
def create_advanced_settings_page (h : Host) (w : World) : Option Nat × World :=
  match w.page_advanced with
  | some dialog => (some dialog, connect_handlers dialog w)
  | none =>
    let path := h.PLUGIN_XML_DIR ++ "/slack-advanced.glade"
    let xml := h.glade_xml_new path h.GETTEXT_PACKAGE
    let w := w.call (.glade_xml_new path h.GETTEXT_PACKAGE)
    let w := w.call (.rtcom_dialog_context_take_obj xml.isSome)
    match xml.bind fun x => x.advanced with
    | none => (none, w.call (.g_warning "Unable to load Advanced settings dialog"))
    | some widget =>
      let dialog := w.next_widget
      let w := { w with
        dialogs := fun i => if i = dialog then some widget else w.dialogs i
        next_widget := w.next_widget + 1 }
      let w := w.modify dialog fun g =>
        { g with buttons := g.buttons ++ [(h.dgettext "hildon-libs" "wdgt_bd_done", h.GTK_RESPONSE_OK)] }
      let account := w.account
      let w := w.modify dialog (rtcom_page_set_account account)
      let profile_name := account.service_display_name
      let msg := h.dgettext h.GETTEXT_PACKAGE "accountwizard_ti_advanced_settings"
      let title := h.g_snprintf 200 msg profile_name
      let w := w.modify dialog fun g => { g with title := title }
      let w := set_transience h dialog w
      let w := w.modify dialog fun g => { g with ref_count := g.ref_count + 1 }
      let w := { w with page_advanced := some dialog }.call
        (.g_object_set_data_full "page_advanced" dialog)
      (some dialog, connect_handlers dialog w)

/-- The callback `slack_plugin_on_advanced_cb`. -/
def slack_plugin_on_advanced_cb (h : Host) (w : World) : World :=
  let r := create_advanced_settings_page h w
  gtk_widget_show r.1 r.2

/-! ## Settings page selector -/

/-- The string `invalid_chars_re` of `slack_plugin_context_init`. -/
def invalid_chars_re : String := "[:'\"<>&;#\\s]"

/-- The class method `slack_plugin_context_init`. -/
def slack_plugin_context_init (h : Host) (plugin : RtcomAccountPlugin) (w : World) : World :=
  let editing := w.editing
  let account := w.account
  let w := (create_advanced_settings_page h w).2
  let page : StartPage :=
    if editing then
      { gtype := .RTCOM_TYPE_EDIT
        username_field := "account"
        username_label := none
        username_invalid_chars_re := invalid_chars_re
        items_mask := plugin.capabilities
        account := account
        on_register := []
        on_advanced := [⟨.slack_plugin_on_advanced_cb, .context⟩] }
    else
      let username_label :=
        h.dgettext h.GETTEXT_PACKAGE "accounts_fi_email" ++ "/" ++
          h.dgettext h.GETTEXT_PACKAGE "accounts_fi_phone"
      { gtype := .RTCOM_TYPE_LOGIN
        username_field := "account"
        username_label := some username_label
        username_invalid_chars_re := invalid_chars_re
        items_mask := plugin.capabilities
        account := account
        on_register := [⟨.slack_plugin_on_register_cb, .null⟩]
        on_advanced := [⟨.slack_plugin_on_advanced_cb, .context⟩] }
  rtcom_dialog_context_set_start_page page w

/-! ## Signal emission -/

/-- Runs one connected handler of the "response" signal. -/
def invoke_response_handler (h : Host) (dialog : Nat) (response : Int) (w : World)
    (handler : Handler) : World :=
  match handler.callback with
  | .on_advanced_settings_response => on_advanced_settings_response h dialog response w
  | _ => w

/-- The GTK `gtk_dialog_response`: the emission of "response" on a dialog runs
every handler connected to it, in the order of connection. -/
def gtk_dialog_response (h : Host) (dialog : Nat) (response : Int) (w : World) : World :=
  match w.dialogs dialog with
  | none => w
  | some g => g.response_handlers.foldl (invoke_response_handler h dialog response) w

/-! ## Observations on the call log -/

/-- The number of validations run. -/
def World.validations (w : World) : Nat :=
  (w.calls.filter fun c =>
    match c with
    | .rtcom_page_validate _ => true
    | _ => false).length

/-- The notification banners shown so far, oldest first. -/
def World.banners (w : World) : List (Nat × String) :=
  w.calls.filterMap fun c =>
    match c with
    | .hildon_banner_show_information d m => some (d, m)
    | _ => none

/-- The start pages declared to the host so far, oldest first. -/
def World.start_pages_set (w : World) : List StartPage :=
  w.calls.filterMap fun c =>
    match c with
    | .rtcom_dialog_context_set_start_page p => some p
    | _ => none

/-- The handler connections made so far, oldest first. -/
def World.connections (w : World) : List (Nat × String × Callback) :=
  w.calls.filterMap fun c =>
    match c with
    | .g_signal_connect d s cb => some (d, s, cb)
    | _ => none

/-- What the two connections at the end of `create_advanced_settings_page` do
to the dialog they are made on. -/
def with_handlers (g : GtkDialog) : GtkDialog :=
  { g with
    response_handlers := g.response_handlers ++ [⟨.on_advanced_settings_response, .context⟩]
    delete_event_handlers := g.delete_event_handlers ++ [⟨.gtk_true, .null⟩] }

/-! ## A concrete host and session -/

/-- A dialog as a glade file describes it, whose page reports the given
outcome on validation. -/
def sample_dialog (outcome : Bool × Option String) : GtkDialog :=
  { title := ""
    buttons := []
    transient_for := none
    destroy_with_parent := false
    visible := false
    ref_count := 1
    response_handlers := []
    delete_event_handlers := []
    page := some { account := none, validate := outcome } }

/-- A host whose resource file is the given one. -/
def sample_host (file : Option GladeXML) : Host :=
  { RTCOM_PLUGIN_CAPABILITY_ALL := 63
    RTCOM_PLUGIN_CAPABILITY_FORGOT_PWD := 4
    GTK_RESPONSE_OK := -5
    PLUGIN_XML_DIR := "/usr/share/rtcom-accounts-plugin-slack"
    GETTEXT_PACKAGE := "osso-applet-accounts"
    dgettext := fun _ msgid => msgid
    g_snprintf := fun _ format _ => format
    glade_xml_new := fun _ _ => file
    gtk_widget_get_toplevel := fun _ => some 1000
    hildon_uri_open := fun _ => none }

/-- A fresh session on account 7. -/
def sample_world (editing : Bool) : World :=
  { editing := editing
    account := { id := 7, service_display_name := "Slack" }
    page_advanced := none
    start_page := none
    dialogs := fun _ => none
    next_widget := 0
    calls := [] }

/-- The descriptor before `slack_plugin_init`. -/
def sample_plugin : RtcomAccountPlugin :=
  { name := none, capabilities := 0, services := [], glade_init_calls := 0 }

/-! ## C strings: lemmas -/

theorem c_str_append_nul (l rest : List Char) (hl : NUL ∉ l) :
    c_str (l ++ NUL :: rest) = l := by
  induction l with
  | nil => simp [c_str]
  | cons x xs ih =>
    have hx : x ≠ NUL := fun e => hl (by simp [e])
    have hxs : NUL ∉ xs := fun m => hl (by simp [m])
    have ih2 := ih hxs
    have hb : (x != NUL) = true := by simpa using hx
    simp only [c_str] at ih2 ⊢
    simp only [List.cons_append, List.takeWhile_cons, hb, if_true, ih2]

theorem c_str_of_nul_free (l : List Char) (hl : NUL ∉ l) : c_str l = l := by
  induction l with
  | nil => simp [c_str]
  | cons x xs ih =>
    have hx : x ≠ NUL := fun e => hl (by simp [e])
    have hxs : NUL ∉ xs := fun m => hl (by simp [m])
    have ih2 := ih hxs
    have hb : (x != NUL) = true := by simpa using hx
    simp only [c_str] at ih2 ⊢
    simp only [List.cons_append, List.takeWhile_cons, hb, if_true, ih2]

theorem strchr_first (pre rest : List Char) (c : Char) (hc : c ∉ pre) (hn : NUL ∉ pre) :
    strchr (pre ++ c :: rest) c = some pre.length := by
  induction pre with
  | nil => simp [strchr]
  | cons x xs ih =>
    have hx : x ≠ c := fun e => hc (by simp [e])
    have hx0 : x ≠ NUL := fun e => hn (by simp [e])
    have ih2 := ih (fun m => hc (by simp [m])) (fun m => hn (by simp [m]))
    simp [strchr, hx, hx0, ih2]

theorem strchr_absent (l : List Char) (c : Char) (hc : c ∉ l) (hne : c ≠ NUL) :
    strchr (l ++ [NUL]) c = none := by
  induction l with
  | nil => simp [strchr, Ne.symm hne]
  | cons x xs ih =>
    have hx : x ≠ c := fun e => hc (by simp [e])
    have ih2 := ih (fun m => hc (by simp [m]))
    by_cases hx0 : x = NUL
    · simp [strchr, hx0, Ne.symm hne]
    · simp [strchr, hx, hx0, ih2]

theorem set_at_length (pre rest : List Char) (a b : Char) :
    (pre ++ a :: rest).set pre.length b = pre ++ b :: rest := by
  induction pre with
  | nil => simp
  | cons x xs ih => simp [ih]

theorem dot_ne_nul : '.' ≠ NUL := by decide

theorem register_uri_dot (pre post : List Char) (hn : NUL ∉ pre ++ '.' :: post)
    (hp : '.' ∉ pre) :
    register_uri (pre ++ '.' :: post) = SLACK_NEW_ACCOUNT_URI ++ String.mk pre := by
  have hn1 : NUL ∉ pre := fun m => hn (by simp [m])
  have h1 : g_strdup (pre ++ '.' :: post) = pre ++ '.' :: (post ++ [NUL]) := by
    simp [g_strdup, c_str_of_nul_free _ hn]
  have h2 : strchr (pre ++ '.' :: (post ++ [NUL])) '.' = some pre.length :=
    strchr_first pre _ '.' hp hn1
  have h3 : c_str SLACK_NEW_ACCOUNT_URI.data = SLACK_NEW_ACCOUNT_URI.data :=
    c_str_of_nul_free _ (by decide)
  apply String.ext
  simp only [register_uri, h1, h2, set_at_length, g_strconcat, List.map, List.flatten,
    c_str_append_nul pre _ hn1, h3]
  simp

theorem register_uri_plain (l : List Char) (hn : NUL ∉ l) (hp : '.' ∉ l) :
    register_uri l = SLACK_NEW_ACCOUNT_URI ++ String.mk l := by
  have h1 : g_strdup l = l ++ [NUL] := by simp [g_strdup, c_str_of_nul_free _ hn]
  have h2 : strchr (l ++ [NUL]) '.' = none := strchr_absent l '.' hp dot_ne_nul
  have h3 : c_str SLACK_NEW_ACCOUNT_URI.data = SLACK_NEW_ACCOUNT_URI.data :=
    c_str_of_nul_free _ (by decide)
  apply String.ext
  simp only [register_uri, h1, h2, g_strconcat, List.map, List.flatten,
    c_str_append_nul l [] hn, h3]
  simp

theorem uris_opened_call_open (w : World) (uri : String) :
    (w.call (.hildon_uri_open uri)).uris_opened = w.uris_opened ++ [uri] := by
  simp [World.uris_opened, World.call, List.filterMap_append]

theorem uris_opened_call_warning (w : World) (m : String) :
    (w.call (.g_warning m)).uris_opened = w.uris_opened := by
  simp [World.uris_opened, World.call, List.filterMap_append]

theorem register_cb_uris (h : Host) (w : World) (L : String) :
    (slack_plugin_on_register_cb h (some L) w).map World.uris_opened =
      some (w.uris_opened ++ [register_uri L.data]) := by
  simp only [slack_plugin_on_register_cb]
  cases h.hildon_uri_open (register_uri L.data) <;>
    simp [uris_opened_call_open, uris_opened_call_warning]

/-! ## The world: lemmas -/

@[simp] theorem call_calls (w : World) (c : HostCall) : (w.call c).calls = w.calls ++ [c] := rfl

@[simp] theorem call_dialogs (w : World) (c : HostCall) : (w.call c).dialogs = w.dialogs := rfl

@[simp] theorem call_page_advanced (w : World) (c : HostCall) :
    (w.call c).page_advanced = w.page_advanced := rfl

@[simp] theorem call_start_page (w : World) (c : HostCall) :
    (w.call c).start_page = w.start_page := rfl

@[simp] theorem call_next_widget (w : World) (c : HostCall) :
    (w.call c).next_widget = w.next_widget := rfl

@[simp] theorem call_account (w : World) (c : HostCall) : (w.call c).account = w.account := rfl

@[simp] theorem call_editing (w : World) (c : HostCall) : (w.call c).editing = w.editing := rfl

@[simp] theorem modify_calls (w : World) (d : Nat) (f : GtkDialog → GtkDialog) :
    (w.modify d f).calls = w.calls := rfl

@[simp] theorem modify_page_advanced (w : World) (d : Nat) (f : GtkDialog → GtkDialog) :
    (w.modify d f).page_advanced = w.page_advanced := rfl

@[simp] theorem modify_start_page (w : World) (d : Nat) (f : GtkDialog → GtkDialog) :
    (w.modify d f).start_page = w.start_page := rfl

@[simp] theorem modify_next_widget (w : World) (d : Nat) (f : GtkDialog → GtkDialog) :
    (w.modify d f).next_widget = w.next_widget := rfl

@[simp] theorem modify_account (w : World) (d : Nat) (f : GtkDialog → GtkDialog) :
    (w.modify d f).account = w.account := rfl

@[simp] theorem modify_editing (w : World) (d : Nat) (f : GtkDialog → GtkDialog) :
    (w.modify d f).editing = w.editing := rfl

@[simp] theorem modify_dialogs_same (w : World) (d : Nat) (f : GtkDialog → GtkDialog) :
    (w.modify d f).dialogs d = (w.dialogs d).map f := by
  simp [World.modify]

theorem connect_handlers_calls (d : Nat) (w : World) :
    (connect_handlers d w).calls = w.calls ++
      [.g_signal_connect d "response" .on_advanced_settings_response,
       .g_signal_connect d "delete-event" .gtk_true] := by
  simp [connect_handlers, g_signal_connect]

@[simp] theorem connect_handlers_page_advanced (d : Nat) (w : World) :
    (connect_handlers d w).page_advanced = w.page_advanced := rfl

@[simp] theorem connect_handlers_next_widget (d : Nat) (w : World) :
    (connect_handlers d w).next_widget = w.next_widget := rfl

@[simp] theorem connect_handlers_start_page (d : Nat) (w : World) :
    (connect_handlers d w).start_page = w.start_page := rfl

theorem connect_handlers_dialogs (d : Nat) (w : World) :
    (connect_handlers d w).dialogs d = (w.dialogs d).map with_handlers := by
  have e : ("delete-event" = "response") = False := by decide
  cases hd : w.dialogs d <;>
    simp [connect_handlers, g_signal_connect, World.modify, World.call, hd, with_handlers, e]

theorem create_cached (h : Host) (w : World) (d : Nat) (hc : w.page_advanced = some d) :
    create_advanced_settings_page h w = (some d, connect_handlers d w) := by
  simp [create_advanced_settings_page, hc]

theorem create_failed (h : Host) (w : World) (hc : w.page_advanced = none)
    (hl : (h.glade_xml_new (h.PLUGIN_XML_DIR ++ "/slack-advanced.glade")
      h.GETTEXT_PACKAGE).bind (fun x => x.advanced) = none) :
    create_advanced_settings_page h w =
      (none, ((w.call (.glade_xml_new (h.PLUGIN_XML_DIR ++ "/slack-advanced.glade")
          h.GETTEXT_PACKAGE)).call
        (.rtcom_dialog_context_take_obj (h.glade_xml_new
          (h.PLUGIN_XML_DIR ++ "/slack-advanced.glade") h.GETTEXT_PACKAGE).isSome)).call
        (.g_warning "Unable to load Advanced settings dialog")) := by
  simp [create_advanced_settings_page, hc, hl]

@[simp] theorem set_transience_page_advanced (h : Host) (d : Nat) (w : World) :
    (set_transience h d w).page_advanced = w.page_advanced := by
  unfold set_transience; split
  · split <;> rfl
  · rfl

@[simp] theorem set_transience_next_widget (h : Host) (d : Nat) (w : World) :
    (set_transience h d w).next_widget = w.next_widget := by
  unfold set_transience; split
  · split <;> rfl
  · rfl

theorem set_transience_start_pages_set (h : Host) (d : Nat) (w : World) :
    (set_transience h d w).start_pages_set = w.start_pages_set := by
  unfold set_transience; split
  · split
    · simp [World.start_pages_set, List.filterMap_append]
    · rfl
  · rfl

theorem create_start_pages_set (h : Host) (w : World) :
    (create_advanced_settings_page h w).2.start_pages_set = w.start_pages_set := by
  cases hc : w.page_advanced with
  | some d =>
    simp [create_cached h w d hc, World.start_pages_set, connect_handlers_calls,
      List.filterMap_append]
  | none =>
    cases hl : (h.glade_xml_new (h.PLUGIN_XML_DIR ++ "/slack-advanced.glade")
      h.GETTEXT_PACKAGE).bind (fun x => x.advanced) with
    | none =>
      simp [create_failed h w hc hl, World.start_pages_set, List.filterMap_append]
    | some g0 =>
      simp only [create_advanced_settings_page, hc, hl]
      have k := set_transience_start_pages_set h w.next_widget
      simp only [World.start_pages_set] at k ⊢
      simp [connect_handlers_calls, List.filterMap_append, k]

/-- Every invocation of `create_advanced_settings_page` on a context with a
cached dialog connects one more "response" handler and one more "delete-event"
handler to that dialog. -/
theorem create_cached_adds_handlers (h : Host) (w : World) (d : Nat) (g : GtkDialog)
    (hc : w.page_advanced = some d) (hg : w.dialogs d = some g) :
    (create_advanced_settings_page h w).2.dialogs d = some (with_handlers g) := by
  rw [create_cached h w d hc, connect_handlers_dialogs, hg]
  rfl

/-! ## Claims -/

/-- C1: for every locale string (a C string, so free of the terminator) given
to `slack_plugin_on_register_cb`, the URL handed to the browser launcher is
"https://www.slack.com/" followed by the part of the locale before its first
dot when it has a dot, and followed by the whole locale when it has none. -/
theorem C1_register_url (h : Host) (w : World) (L : String) (hnul : NUL ∉ L.data) :
    (∀ pre post : List Char, L.data = pre ++ '.' :: post → '.' ∉ pre →
      (slack_plugin_on_register_cb h (some L) w).map World.uris_opened =
        some (w.uris_opened ++ ["https://www.slack.com/" ++ String.mk pre])) ∧
    ('.' ∉ L.data →
      (slack_plugin_on_register_cb h (some L) w).map World.uris_opened =
        some (w.uris_opened ++ ["https://www.slack.com/" ++ L])) := by
  refine ⟨fun pre post hL hp => ?_, fun hp => ?_⟩
  · rw [register_cb_uris, hL, register_uri_dot pre post (hL ▸ hnul) hp]
    rfl
  · rw [register_cb_uris, register_uri_plain L.data hnul hp]
    rfl

/-- C1, witness: the locale "en_US.UTF-8" opens "https://www.slack.com/en_US". -/
theorem C1_register_url_witness :
    NUL ∉ "en_US.UTF-8".data ∧
    (slack_plugin_on_register_cb (sample_host none) (some "en_US.UTF-8")
        (sample_world false)).map World.uris_opened =
      some ["https://www.slack.com/en_US"] :=
  ⟨by decide,
   (C1_register_url (sample_host none) (sample_world false) "en_US.UTF-8" (by decide)).1
     "en_US".data "UTF-8".data (by decide) (by decide)⟩

/-- C2: the capability mask that `slack_plugin_init` registers is the host set
ALL with the forgot-password bits removed: every bit of F is clear in the
mask, and every other bit of the mask is the corresponding bit of ALL. -/
theorem C2_capability_mask (h : Host) (self : RtcomAccountPlugin)
    (hall : h.RTCOM_PLUGIN_CAPABILITY_ALL < 2 ^ 32) :
    (∀ j, h.RTCOM_PLUGIN_CAPABILITY_FORGOT_PWD.testBit j = true →
      (slack_plugin_init h self).capabilities.testBit j = false) ∧
    (∀ j, h.RTCOM_PLUGIN_CAPABILITY_FORGOT_PWD.testBit j = false →
      (slack_plugin_init h self).capabilities.testBit j =
        h.RTCOM_PLUGIN_CAPABILITY_ALL.testBit j) := by
  have key : ∀ j, (slack_plugin_init h self).capabilities.testBit j =
      (h.RTCOM_PLUGIN_CAPABILITY_ALL.testBit j &&
        !h.RTCOM_PLUGIN_CAPABILITY_FORGOT_PWD.testBit j) := by
    intro j
    simp only [slack_plugin_init, bit_not, Nat.testBit_mod_two_pow, Nat.testBit_and,
      Nat.testBit_xor, Nat.testBit_two_pow_sub_one]
    by_cases hj : j < 32
    · simp [hj]
    · have hlt : h.RTCOM_PLUGIN_CAPABILITY_ALL < 2 ^ j :=
        lt_of_lt_of_le hall (Nat.pow_le_pow_right (by norm_num) (by omega))
      simp [hj, Nat.testBit_eq_false_of_lt hlt]
  refine ⟨fun j hj => ?_, fun j hj => ?_⟩
  · rw [key, hj]; simp
  · rw [key, hj]; simp

/-- C2, witness: with ALL = 63 and the forgot-password bit 4 the mask is 59. -/
theorem C2_capability_mask_witness :
    (slack_plugin_init (sample_host none) sample_plugin).capabilities.testBit 2 = false ∧
    (slack_plugin_init (sample_host none) sample_plugin).capabilities.testBit 3 = true :=
  ⟨(C2_capability_mask (sample_host none) sample_plugin (by decide)).1 2 (by decide),
   ((C2_capability_mask (sample_host none) sample_plugin (by decide)).2 3 (by decide)).trans
     (by decide)⟩

/-- C4: the page that `slack_plugin_context_init` declares as the start page
is the Edit form bound to the account of the context when editing is true, and
the Login form bound to that account with the username label made of the email
label, "/" and the phone label when editing is false; in either case it is the
only start page the call sets. -/
theorem C4_start_page (h : Host) (plugin : RtcomAccountPlugin) (w : World) :
    (w.editing = true → ∃ p,
      (slack_plugin_context_init h plugin w).start_page = some p ∧
      (slack_plugin_context_init h plugin w).start_pages_set = w.start_pages_set ++ [p] ∧
      p.gtype = .RTCOM_TYPE_EDIT ∧ p.account = w.account) ∧
    (w.editing = false → ∃ p,
      (slack_plugin_context_init h plugin w).start_page = some p ∧
      (slack_plugin_context_init h plugin w).start_pages_set = w.start_pages_set ++ [p] ∧
      p.gtype = .RTCOM_TYPE_LOGIN ∧ p.account = w.account ∧
      p.username_label = some (h.dgettext h.GETTEXT_PACKAGE "accounts_fi_email" ++ "/" ++
        h.dgettext h.GETTEXT_PACKAGE "accounts_fi_phone")) := by
  have k := create_start_pages_set h w
  simp only [World.start_pages_set] at k
  constructor
  · intro he
    refine ⟨_, rfl, ?_, ?_⟩
    · simp [slack_plugin_context_init, rtcom_dialog_context_set_start_page,
        World.start_pages_set, List.filterMap_append, k, he]
    · simp [he]
  · intro he
    refine ⟨_, rfl, ?_, ?_⟩
    · simp [slack_plugin_context_init, rtcom_dialog_context_set_start_page,
        World.start_pages_set, List.filterMap_append, k, he]
    · simp [he]

/-- C4, witness: an editing session gets the Edit form, a new-account session
the Login form. -/
theorem C4_start_page_witness :
    ((slack_plugin_context_init (sample_host none) sample_plugin
        (sample_world true)).start_page.map fun p => p.gtype) = some .RTCOM_TYPE_EDIT ∧
    ((slack_plugin_context_init (sample_host none) sample_plugin
        (sample_world false)).start_page.bind fun p => p.username_label) =
      some "accounts_fi_email/accounts_fi_phone" := by
  obtain ⟨p, h1, _, h3, _⟩ :=
    (C4_start_page (sample_host none) sample_plugin (sample_world true)).1 rfl
  obtain ⟨q, k1, _, _, _, k5⟩ :=
    (C4_start_page (sample_host none) sample_plugin (sample_world false)).2 rfl
  refine ⟨by rw [h1]; exact congrArg some h3, ?_⟩
  rw [k1]
  exact k5.trans (by decide)

/-- C5: on an OK response to a visible advanced dialog,
`on_advanced_settings_response` hides the dialog exactly when the validation
of the embedded page succeeds; when the validation fails with an error message
the dialog stays visible, one banner with that message is shown on it, and the
cache of the context is what it was, so it still holds the dialog. -/
theorem C5_ok_response (h : Host) (w : World) (d : Nat) (g : GtkDialog)
    (hg : w.dialogs d = some g) (hv : g.visible = true) :
    ((((on_advanced_settings_response h d h.GTK_RESPONSE_OK w).dialogs d).map
        fun x => x.visible) = some false ↔ (rtcom_page_validate g.page).1 = true) ∧
    (∀ m : String, rtcom_page_validate g.page = (false, some m) →
      (((on_advanced_settings_response h d h.GTK_RESPONSE_OK w).dialogs d).map
        fun x => x.visible) = some true ∧
      (on_advanced_settings_response h d h.GTK_RESPONSE_OK w).banners =
        w.banners ++ [(d, m)] ∧
      (on_advanced_settings_response h d h.GTK_RESPONSE_OK w).validations =
        w.validations + 1 ∧
      (on_advanced_settings_response h d h.GTK_RESPONSE_OK w).page_advanced =
        w.page_advanced) := by
  constructor
  · rcases hr : rtcom_page_validate g.page with ⟨ok, err⟩
    cases ok
    · cases err <;>
        simp [on_advanced_settings_response, hg, hr, hv]
    · simp [on_advanced_settings_response, hg, hr, gtk_widget_hide]
  · intro m hm
    simp [on_advanced_settings_response, hg, hm, hv, World.banners, World.validations,
      List.filterMap_append, List.filter_append]

/-- C5, witness: a page that fails validation with "bad token" keeps the
dialog visible and shows a banner with "bad token". -/
theorem C5_ok_response_witness :
    (((on_advanced_settings_response
        (sample_host (some ⟨some (sample_dialog (false, some "bad token"))⟩)) 0 (-5)
        (slack_plugin_on_advanced_cb
          (sample_host (some ⟨some (sample_dialog (false, some "bad token"))⟩))
          (sample_world true))).dialogs 0).map fun x => x.visible) = some true ∧
    (on_advanced_settings_response
        (sample_host (some ⟨some (sample_dialog (false, some "bad token"))⟩)) 0 (-5)
        (slack_plugin_on_advanced_cb
          (sample_host (some ⟨some (sample_dialog (false, some "bad token"))⟩))
          (sample_world true))).banners = [(0, "bad token")] ∧
    (on_advanced_settings_response
        (sample_host (some ⟨some (sample_dialog (false, some "bad token"))⟩)) 0 (-5)
        (slack_plugin_on_advanced_cb
          (sample_host (some ⟨some (sample_dialog (false, some "bad token"))⟩))
          (sample_world true))).page_advanced = some 0 := by
  have k := (C5_ok_response
    (sample_host (some ⟨some (sample_dialog (false, some "bad token"))⟩))
    (slack_plugin_on_advanced_cb
      (sample_host (some ⟨some (sample_dialog (false, some "bad token"))⟩))
      (sample_world true)) 0 _ rfl rfl).2 "bad token" rfl
  exact ⟨k.1, k.2.1, k.2.2.2⟩

/-- C6: on every response other than OK, whatever the embedded page would
report on validation, `on_advanced_settings_response` hides the dialog and
does nothing else: no validation is run and no banner is shown. -/
theorem C6_other_response (h : Host) (w : World) (d : Nat) (response : Int)
    (hr : response ≠ h.GTK_RESPONSE_OK) :
    (on_advanced_settings_response h d response w).calls = w.calls ++ [.gtk_widget_hide d] ∧
    (on_advanced_settings_response h d response w).validations = w.validations ∧
    (on_advanced_settings_response h d response w).banners = w.banners ∧
    (∀ g, w.dialogs d = some g →
      (((on_advanced_settings_response h d response w).dialogs d).map fun x => x.visible) =
        some false) := by
  refine ⟨?_, ?_, ?_, ?_⟩
  · simp [on_advanced_settings_response, hr, gtk_widget_hide]
  · simp [on_advanced_settings_response, hr, gtk_widget_hide, World.validations,
      List.filter_append]
  · simp [on_advanced_settings_response, hr, gtk_widget_hide, World.banners,
      List.filterMap_append]
  · intro g hg
    simp [on_advanced_settings_response, hr, gtk_widget_hide, hg]

/-- C6, witness: the response Cancel (-6) hides a shown dialog whose page is
invalid, with no banner. -/
theorem C6_other_response_witness :
    (((on_advanced_settings_response
        (sample_host (some ⟨some (sample_dialog (false, some "bad token"))⟩)) 0 (-6)
        (slack_plugin_on_advanced_cb
          (sample_host (some ⟨some (sample_dialog (false, some "bad token"))⟩))
          (sample_world true))).dialogs 0).map fun x => x.visible) = some false ∧
    (on_advanced_settings_response
        (sample_host (some ⟨some (sample_dialog (false, some "bad token"))⟩)) 0 (-6)
        (slack_plugin_on_advanced_cb
          (sample_host (some ⟨some (sample_dialog (false, some "bad token"))⟩))
          (sample_world true))).banners = [] := by
  have k := C6_other_response
    (sample_host (some ⟨some (sample_dialog (false, some "bad token"))⟩))
    (slack_plugin_on_advanced_cb
      (sample_host (some ⟨some (sample_dialog (false, some "bad token"))⟩))
      (sample_world true)) 0 (-6) (by decide)
  exact ⟨k.2.2.2 _ rfl, k.2.2.1⟩

/-- C7, evaluated on the code: with a resource file that has the dialog,
`slack_plugin_context_init` makes the first invocation of
`create_advanced_settings_page` and leaves one "response" handler; the first
user-initiated advanced action makes the second and leaves two of each handler;
one OK response then runs the validation twice and, the page failing with
"bad token", shows two banners. -/
theorem C7_handlers_accumulate :
    (((slack_plugin_context_init
        (sample_host (some ⟨some (sample_dialog (false, some "bad token"))⟩)) sample_plugin
        (sample_world false)).dialogs 0).map fun g => g.response_handlers.length) = some 1 ∧
    (((slack_plugin_on_advanced_cb
        (sample_host (some ⟨some (sample_dialog (false, some "bad token"))⟩))
        (slack_plugin_context_init
          (sample_host (some ⟨some (sample_dialog (false, some "bad token"))⟩)) sample_plugin
          (sample_world false))).dialogs 0).map fun g =>
        (g.response_handlers.length, g.delete_event_handlers.length)) = some (2, 2) ∧
    (gtk_dialog_response
        (sample_host (some ⟨some (sample_dialog (false, some "bad token"))⟩)) 0 (-5)
        (slack_plugin_on_advanced_cb
          (sample_host (some ⟨some (sample_dialog (false, some "bad token"))⟩))
          (slack_plugin_context_init
            (sample_host (some ⟨some (sample_dialog (false, some "bad token"))⟩)) sample_plugin
            (sample_world false)))).validations = 2 ∧
    (gtk_dialog_response
        (sample_host (some ⟨some (sample_dialog (false, some "bad token"))⟩)) 0 (-5)
        (slack_plugin_on_advanced_cb
          (sample_host (some ⟨some (sample_dialog (false, some "bad token"))⟩))
          (slack_plugin_context_init
            (sample_host (some ⟨some (sample_dialog (false, some "bad token"))⟩)) sample_plugin
            (sample_world false)))).banners = [(0, "bad token"), (0, "bad token")] := by
  decide

/-- C8: on a context without a cached dialog whose resource load yields no
dialog, `create_advanced_settings_page` returns nothing, connects no handler,
touches no dialog and leaves the cache absent; `slack_plugin_context_init`
still sets the start page chosen by the editing flag; and the advanced action
that follows shows nothing: it loads again, warns, and calls `gtk_widget_show`
on NULL. -/
theorem C8_load_failure (h : Host) (plugin : RtcomAccountPlugin) (w : World)
    (hc : w.page_advanced = none)
    (hl : (h.glade_xml_new (h.PLUGIN_XML_DIR ++ "/slack-advanced.glade")
      h.GETTEXT_PACKAGE).bind (fun x => x.advanced) = none) :
    ((create_advanced_settings_page h w).1 = none ∧
      (create_advanced_settings_page h w).2.connections = w.connections ∧
      (create_advanced_settings_page h w).2.dialogs = w.dialogs ∧
      (create_advanced_settings_page h w).2.page_advanced = none) ∧
    (∃ p, (slack_plugin_context_init h plugin w).start_page = some p ∧
      (slack_plugin_context_init h plugin w).start_pages_set = w.start_pages_set ++ [p] ∧
      p.gtype = (if w.editing then .RTCOM_TYPE_EDIT else .RTCOM_TYPE_LOGIN) ∧
      p.account = w.account) ∧
    ((slack_plugin_on_advanced_cb h (slack_plugin_context_init h plugin w)).dialogs =
        w.dialogs ∧
      (slack_plugin_on_advanced_cb h (slack_plugin_context_init h plugin w)).page_advanced =
        none ∧
      (slack_plugin_on_advanced_cb h (slack_plugin_context_init h plugin w)).calls =
        (slack_plugin_context_init h plugin w).calls ++
          [.glade_xml_new (h.PLUGIN_XML_DIR ++ "/slack-advanced.glade") h.GETTEXT_PACKAGE,
           .rtcom_dialog_context_take_obj (h.glade_xml_new
             (h.PLUGIN_XML_DIR ++ "/slack-advanced.glade") h.GETTEXT_PACKAGE).isSome,
           .g_warning "Unable to load Advanced settings dialog",
           .gtk_widget_show none]) := by
  have k := create_start_pages_set h w
  simp only [World.start_pages_set] at k
  have hc1 : (slack_plugin_context_init h plugin w).page_advanced = none := by
    simp [slack_plugin_context_init, rtcom_dialog_context_set_start_page,
      create_failed h w hc hl, hc]
  refine ⟨⟨?_, ?_, ?_, ?_⟩, ⟨_, rfl, ?_, ?_⟩, ?_, ?_, ?_⟩
  · simp [create_failed h w hc hl]
  · simp [create_failed h w hc hl, World.connections, List.filterMap_append]
  · simp [create_failed h w hc hl]
  · simp [create_failed h w hc hl, hc]
  · simp [slack_plugin_context_init, rtcom_dialog_context_set_start_page,
      World.start_pages_set, List.filterMap_append, k]
  · cases w.editing <;> simp
  · simp only [slack_plugin_on_advanced_cb, create_failed h _ hc1 hl, gtk_widget_show]
    simp [slack_plugin_context_init, rtcom_dialog_context_set_start_page,
      create_failed h w hc hl]
  · simp only [slack_plugin_on_advanced_cb, create_failed h _ hc1 hl, gtk_widget_show]
    simp [hc1]
  · simp only [slack_plugin_on_advanced_cb, create_failed h _ hc1 hl, gtk_widget_show]
    simp

/-- C8, witness: with no resource file, a new-account session still gets its
Login start page, and the advanced action leaves the cache absent. -/
theorem C8_load_failure_witness :
    ((slack_plugin_context_init (sample_host none) sample_plugin
        (sample_world false)).start_page.map fun p => p.gtype) = some .RTCOM_TYPE_LOGIN ∧
    (slack_plugin_on_advanced_cb (sample_host none)
      (slack_plugin_context_init (sample_host none) sample_plugin
        (sample_world false))).page_advanced = none := by
  obtain ⟨_, ⟨p, h1, _, h3, _⟩, _, h5, _⟩ :=
    C8_load_failure (sample_host none) sample_plugin (sample_world false) rfl rfl
  exact ⟨by rw [h1]; exact congrArg some h3, h5⟩

end SlackPlugin
